import Mathlib

/-!
Verification development for the OmniPDF document-workspace application.

The application is a single React component (src/unnamed/part_000) plus two
service modules (src/services/pdfService.ts, src/services/geminiService.ts)
and a types module (src/types.ts).  This file gives a shallow embedding of
the session state and of every state-changing handler of the component, and
proves the behavioural properties stated about them.

Modelling conventions:
* React useState fields become fields of an explicit AppState record; each
  event handler becomes a pure function AppState -> AppState (asynchronous
  handlers additionally take the outcome of the awaited collaborator call as
  an explicit argument, so one function application models the whole handler
  run from start to settled promise).
* The AI provider (Gemini) is modelled as an oracle function from the request
  actually sent to the outcome of the call: either a thrown error message or
  a response whose text field may be absent or empty.
* JavaScript string primitives (substring, includes, findIndex, toLowerCase,
  trim) are modelled by functions named js* below, operating on Lean strings;
  JS UTF-16 code units are identified with Lean characters.
* Refs that hold only presentation resources (canvasRef, chatEndRef, and the
  pdf.js document handle used exclusively by the canvas renderer) and the
  transient isRendering flag are omitted: no claim mentions rendering output.
-/

namespace OmniPDF

/-- Role of a chat message (src/types.ts, ChatMessage.role). -/
inductive Role
  | user
  | assistant
  deriving DecidableEq

/-- Chat message (src/types.ts, ChatMessage). -/
structure ChatMessage where
  role : Role
  content : String
  deriving DecidableEq

/-- Edit action descriptor (src/types.ts, EditAction). -/
structure EditAction where
  id : String
  label : String
  description : String
  prompt : String
  icon : String
  deriving DecidableEq

/-- Model of a browser File object as the app observes it: its display name,
its MIME type, and its pages.  Each page is the list of text items that the
PDF text layer yields for that page; the extractor joins the items of a page
with single spaces (pdfService.ts line 24). -/
structure PdfFile where
  name : String
  type : String
  pages : List (List String)
  deriving DecidableEq

/-- Document state record (src/types.ts, PDFState). -/
structure PDFState where
  file : Option PdfFile
  url : Option String
  text : String
  pageTexts : List String
  numPages : Nat
  isProcessing : Bool
  error : Option String
  deriving DecidableEq

/-- Result of text extraction (pdfService.ts, ExtractedData). -/
structure ExtractedData where
  fullText : String
  pageTexts : List String
  numPages : Nat
  deriving DecidableEq

/-- Session status as named by the specification.  The code has no status
field; the spec status is the following function of the PDFState fields:
no file loaded means Empty, extraction in flight means Loading, a recorded
error on a loaded file means Failed, otherwise Ready. -/
inductive Status
  | Empty
  | Loading
  | Ready
  | Failed
  deriving DecidableEq

/-- Map the concrete PDFState record to the spec-level session status. -/
def statusOf (p : PDFState) : Status :=
  if p.file.isNone then Status.Empty
  else if p.isProcessing then Status.Loading
  else if p.error.isSome then Status.Failed
  else Status.Ready

/-! ### JavaScript string primitives -/

/-- JS String.prototype.trim: strip leading and trailing whitespace. -/
def jsTrim (s : String) : String :=
  String.mk (((s.data.dropWhile Char.isWhitespace).reverse.dropWhile Char.isWhitespace).reverse)

/-- JS String.prototype.toLowerCase, restricted to the per-character case
folding Lean provides. -/
def jsToLower (s : String) : String :=
  String.mk (s.data.map Char.toLower)

/-- JS String.prototype.substring(a, b) for a less or equal b: the code units
with indices in [a, b). -/
def jsSubstring (s : String) (a b : Nat) : String :=
  String.mk ((s.data.drop a).take (b - a))

/-- Containment of one character list in another, by scanning successive
suffixes for a leading match. -/
def infixCheck (pat : List Char) : List Char → Bool
  | [] => pat.isEmpty
  | x :: xs => pat.isPrefixOf (x :: xs) || infixCheck pat xs

/-- JS String.prototype.includes: substring containment test. -/
def jsIncludes (s pat : String) : Bool :=
  infixCheck pat.data s.data

/-- JS Array.prototype.findIndex: index of the first element satisfying the
predicate, or -1 when none does. -/
def jsFindIndex (p : α → Bool) : List α → Int
  | [] => -1
  | x :: xs =>
      if p x then 0
      else
        let r := jsFindIndex p xs
        if r = -1 then -1 else r + 1

/-! ### pdfService.ts -/

/-- Text of one page: the text items joined with single spaces
(pdfService.ts line 24, textContent.items.map(...).join(" ")). -/
def pageTextOf (items : List String) : String :=
  String.intercalate " " items

/-- The extraction loop of extractTextFromPDF (pdfService.ts lines 21-27),
started at page index i: returns the accumulated fullText and the list of
page texts, in page order.  Each page contributes the banner
"--- Page i ---", a newline, the page text, and a blank line to fullText. -/
def extractPages : Nat → List (List String) → String × List String
  | _, [] => ("", [])
  | i, p :: ps =>
      let t := pageTextOf p
      let r := extractPages (i + 1) ps
      ("--- Page " ++ toString i ++ " ---\n" ++ t ++ "\n\n" ++ r.1, t :: r.2)

/-- pdfService.ts, extractTextFromPDF: derive fullText, pageTexts and
numPages from the pages of the file.  The asynchronous pdf.js calls are
summarised by reading the page item lists off the PdfFile model; the loop
runs i = 1 .. numPages. -/
def extractTextFromPDF (f : PdfFile) : ExtractedData :=
  { fullText := (extractPages 1 f.pages).1
    pageTexts := (extractPages 1 f.pages).2
    numPages := f.pages.length }

/-- The join of a list of page texts with the page-boundary separators used
by the extractor, numbering pages from i.  This is the spec notion of
"ordered join of pageTexts with the defined page separators". -/
def fullTextJoin : Nat → List String → String
  | _, [] => ""
  | i, t :: ts =>
      "--- Page " ++ toString i ++ " ---\n" ++ t ++ "\n\n" ++ fullTextJoin (i + 1) ts

/-! ### geminiService.ts -/

/-- Document text slice submitted by a transform action: the first 15000
code units (geminiService.ts line 23, docText.substring(0, 15000)). -/
def actionDocSlice (docText : String) : String :=
  jsSubstring docText 0 15000

/-- Document text slice submitted by a chat turn: the first 20000 code units
(geminiService.ts line 58, docText.substring(0, 20000)). -/
def chatDocSlice (docText : String) : String :=
  jsSubstring docText 0 20000

/-- The prompt string built by processDocumentAction (geminiService.ts lines
19-30), with the template-literal interpolations spelled out. -/
def buildActionPrompt (docText actionPrompt context : String) : String :=
  "\n    You are a professional document editor and analyst.\n    Below is the content of a PDF document:\n    --- DOCUMENT START ---\n    "
    ++ actionDocSlice docText
    ++ " // Truncate if too long for safety\n    --- DOCUMENT END ---\n\n    Instruction: "
    ++ actionPrompt
    ++ "\n    "
    ++ (if context = "" then "" else "Additional Context/User Input: " ++ context)
    ++ "\n\n    Please provide a high-quality response. If the request is to \"rewrite\", \"summarize\", or \"transform\", provide the new content clearly.\n  "

/-- A chat request as assembled by chatWithDocument (geminiService.ts lines
51-72): the model name, the system instruction holding the truncated
document, and the single message sent on the fresh chat object. -/
structure ChatRequest where
  model : String
  systemInstruction : String
  message : String
  deriving DecidableEq

/-- The system instruction built by chatWithDocument (geminiService.ts lines
53-59). -/
def chatSystemInstruction (docText : String) : String :=
  "\n    You are OmniPDF Assistant. You have full access to the document text provided below.\n    Answer questions based ONLY on the document content where possible.\n    If the information is not in the document, state that clearly but try to be helpful.\n    Document content:\n    "
    ++ chatDocSlice docText
    ++ "\n  "

/-- The full request issued by one chatWithDocument call.  The history
parameter of chatWithDocument is accepted but never used by the source
(a fresh chat is created per call and only userMessage is sent), so it does
not appear on the right-hand side. -/
def chatRequestOf (docText : String) (_history : List ChatMessage)
    (userMessage : String) : ChatRequest :=
  { model := "gemini-3-pro-preview"
    systemInstruction := chatSystemInstruction docText
    message := userMessage }

/-- Outcome of one provider call, as a function of the request contents:
Except.error e models a thrown error whose message is e (an empty e models a
falsy message), Except.ok t models a resolved response whose text field is t
(none models an absent text, and the empty string is falsy in JS). -/
def AIBehaviour (α : Type) : Type :=
  α → Except String (Option String)

/-- geminiService.ts, processDocumentAction.  getAIClient throws before the
try block when the API key is missing; inside the try block every provider
error is caught and turned into the string "Error: ..." which is returned
normally.  An Except.error result therefore occurs only for a missing key. -/
def processDocumentAction (apiKeyPresent : Bool)
    (docText actionPrompt context : String)
    (beh : AIBehaviour String) : Except String String :=
  if apiKeyPresent = false then
    Except.error "API Key is missing"
  else
    match beh (buildActionPrompt docText actionPrompt context) with
    | Except.ok t =>
        Except.ok
          (match t with
            | some r =>
                if r = "" then "I couldn\u0027t process the request. Please try again." else r
            | none => "I couldn\u0027t process the request. Please try again.")
    | Except.error e =>
        Except.ok ("Error: " ++ (if e = "" then "Failed to communicate with AI" else e))

/-- geminiService.ts, chatWithDocument.  As with processDocumentAction, the
only thrown failure is the missing API key; provider errors are caught and
replaced by a fixed sentence returned normally. -/
def chatWithDocument (apiKeyPresent : Bool) (docText : String)
    (history : List ChatMessage) (userMessage : String)
    (beh : AIBehaviour ChatRequest) : Except String String :=
  if apiKeyPresent = false then
    Except.error "API Key is missing"
  else
    match beh (chatRequestOf docText history userMessage) with
    | Except.ok t =>
        Except.ok
          (match t with
            | some r => if r = "" then "No response received." else r
            | none => "No response received.")
    | Except.error _ =>
        Except.ok "Something went wrong during the conversation."

/-! ### The App component (src/unnamed/part_000) -/

/-- The useState fields of the App component, in declaration order
(part_000 lines 58-77).  canvasRef, chatEndRef, pdfDocRef and isRendering
are presentation resources and are omitted (see the file header). -/
structure AppState where
  pdfState : PDFState
  activeTab : String
  chatHistory : List ChatMessage
  userInput : String
  editedContent : String
  isAiLoading : Bool
  zoom : Rat
  currentPage : Int
  searchQuery : String
  deriving DecidableEq

/-- Initial values of the useState hooks (part_000 lines 58-77). -/
def initialState : AppState :=
  { pdfState :=
      { file := none, url := none, text := "", pageTexts := [], numPages := 0
        isProcessing := false, error := none }
    activeTab := "view"
    chatHistory := []
    userInput := ""
    editedContent := ""
    isAiLoading := false
    zoom := 1
    currentPage := 1
    searchQuery := "" }

/-- The rejection branch of handleFileUpload (part_000 lines 125-128):
only the error field of pdfState changes. -/
def uploadRejected (s : AppState) : AppState :=
  { s with pdfState := { s.pdfState with error := some "Please upload a valid PDF file." } }

/-- The state set synchronously by handleFileUpload before the extraction is
awaited (part_000 lines 130-138): the document fields are cleared, the file
and its object URL are stored, and isProcessing is raised.  URL.createObjectURL
is modelled as the string "blob:" followed by the file name. -/
def uploadResetState (s : AppState) (f : PdfFile) : AppState :=
  { s with pdfState :=
      { file := some f
        url := some ("blob:" ++ f.name)
        text := ""
        pageTexts := []
        numPages := 0
        isProcessing := true
        error := none } }

/-- part_000, handleFileUpload (lines 123-160), run from the event to the
settled promise.  file is the selected file, if any; extractOk says whether
the awaited pdf.js open plus extractTextFromPDF succeeded (on success the
extracted data is determined by the file) or threw. -/
def handleFileUpload (s : AppState) (file : Option PdfFile) (extractOk : Bool) : AppState :=
  match file with
  | none => uploadRejected s
  | some f =>
      if f.type = "application/pdf" then
        let s1 := uploadResetState s f
        if extractOk then
          let d := extractTextFromPDF f
          { s1 with
              pdfState :=
                { s1.pdfState with
                    text := d.fullText
                    pageTexts := d.pageTexts
                    numPages := d.numPages
                    isProcessing := false }
              currentPage := 1 }
        else
          { s1 with pdfState :=
              { s1.pdfState with
                  isProcessing := false
                  error := some "Failed to extract text from PDF." } }
      else
        uploadRejected s

/-- part_000, handleSearch (lines 162-172): blank queries are ignored; the
lowercased query is looked up in the lowercased page texts in order with
findIndex, and on a hit currentPage becomes the found index plus one. -/
def handleSearch (s : AppState) : AppState :=
  if jsTrim s.searchQuery = "" then s
  else
    let lowerQuery := jsToLower s.searchQuery
    let foundPageIndex :=
      jsFindIndex (fun t => jsIncludes (jsToLower t) lowerQuery) s.pdfState.pageTexts
    if foundPageIndex ≠ -1 then { s with currentPage := foundPageIndex + 1 }
    else s

/-- part_000, handleAction (lines 174-186), run to the settled promise: the
guard returns when the document text is empty; otherwise the edit tab is
activated, processDocumentAction is awaited, its returned string overwrites
editedContent, and a thrown error is caught leaving editedContent alone. -/
def handleAction (s : AppState) (action : EditAction) (apiKeyPresent : Bool)
    (beh : AIBehaviour String) : AppState :=
  if s.pdfState.text = "" then s
  else
    let s1 := { s with isAiLoading := true, activeTab := "edit" }
    match processDocumentAction apiKeyPresent s.pdfState.text action.prompt "" beh with
    | Except.ok result => { s1 with editedContent := result, isAiLoading := false }
    | Except.error _ => { s1 with isAiLoading := false }

/-- part_000, handleSendMessage (lines 188-205), run to the settled promise:
the guard returns on a blank input, an empty document text, or a call already
in flight; otherwise the user message is appended synchronously, the input is
cleared, chatWithDocument is awaited with the transcript captured before the
append, and the assistant reply or the catch fallback is appended after. -/
def handleSendMessage (s : AppState) (apiKeyPresent : Bool)
    (beh : AIBehaviour ChatRequest) : AppState :=
  if jsTrim s.userInput = "" ∨ s.pdfState.text = "" ∨ s.isAiLoading = true then s
  else
    let userMsg : ChatMessage := { role := Role.user, content := s.userInput }
    let s1 := { s with
      chatHistory := s.chatHistory ++ [userMsg]
      userInput := ""
      isAiLoading := true }
    match chatWithDocument apiKeyPresent s.pdfState.text s.chatHistory s.userInput beh with
    | Except.ok aiResponse =>
        { s1 with
            chatHistory := s1.chatHistory ++ [{ role := Role.assistant, content := aiResponse }]
            isAiLoading := false }
    | Except.error _ =>
        { s1 with
            chatHistory :=
              s1.chatHistory ++ [{ role := Role.assistant, content := "Sorry, I failed to process that." }]
            isAiLoading := false }

/-- Close button onClick (part_000 lines 295-303): pdfState is reset to its
initial value (and the pdf.js handle ref is dropped); nothing else changes. -/
def closeSession (s : AppState) : AppState :=
  { s with pdfState :=
      { file := none, url := none, text := "", pageTexts := [], numPages := 0
        isProcessing := false, error := none } }

/-- Zoom-out button (part_000 line 393). -/
def zoomOutClick (s : AppState) : AppState :=
  { s with zoom := max (1 / 2 : Rat) (s.zoom - 1 / 10) }

/-- Zoom-in button (part_000 line 400). -/
def zoomInClick (s : AppState) : AppState :=
  { s with zoom := min (3 : Rat) (s.zoom + 1 / 10) }

/-- Zoom-reset button (part_000 line 407). -/
def zoomResetClick (s : AppState) : AppState :=
  { s with zoom := 1 }

/-- Previous-page button (part_000 line 417). -/
def prevPageClick (s : AppState) : AppState :=
  { s with currentPage := max 1 (s.currentPage - 1) }

/-- Next-page button (part_000 line 436). -/
def nextPageClick (s : AppState) : AppState :=
  { s with currentPage := min (s.pdfState.numPages : Int) (s.currentPage + 1) }

/-- Direct page-number input onChange (part_000 lines 427-430): the parsed
value is stored only when it lies in [1, numPages]; otherwise (including the
NaN of an unparsable entry, which fails the comparison) nothing happens. -/
def pageInputChange (s : AppState) (val : Int) : AppState :=
  if 1 ≤ val ∧ val ≤ (s.pdfState.numPages : Int) then { s with currentPage := val }
  else s

/-- Tab selection (part_000 line 329). -/
def setActiveTabTo (s : AppState) (t : String) : AppState :=
  { s with activeTab := t }

/-- Chat input onChange (part_000 line 552). -/
def setUserInputTo (s : AppState) (t : String) : AppState :=
  { s with userInput := t }

/-- Search input onChange (part_000 line 451). -/
def setSearchQueryTo (s : AppState) (t : String) : AppState :=
  { s with searchQuery := t }

/-! ### The transition system

One Step is one complete handler run, including the settling of whatever
promise the handler awaits.  The upload step carries the guard that the file
input is rendered only on the empty screen (part_000 lines 217 and 234: the
input exists only when pdfState.file is null); the close step likewise exists
only on the loaded screen (line 278). -/

/-- One user-driven transition of the App component. -/
inductive Step : AppState → AppState → Prop
  | upload (s : AppState) (file : Option PdfFile) (extractOk : Bool)
      (h : s.pdfState.file = none) : Step s (handleFileUpload s file extractOk)
  | close (s : AppState) (h : s.pdfState.file.isSome = true) : Step s (closeSession s)
  | search (s : AppState) : Step s (handleSearch s)
  | action (s : AppState) (a : EditAction) (k : Bool) (beh : AIBehaviour String) :
      Step s (handleAction s a k beh)
  | send (s : AppState) (k : Bool) (beh : AIBehaviour ChatRequest) :
      Step s (handleSendMessage s k beh)
  | zoomIn (s : AppState) : Step s (zoomInClick s)
  | zoomOut (s : AppState) : Step s (zoomOutClick s)
  | zoomReset (s : AppState) : Step s (zoomResetClick s)
  | prev (s : AppState) : Step s (prevPageClick s)
  | next (s : AppState) : Step s (nextPageClick s)
  | pageInput (s : AppState) (v : Int) : Step s (pageInputChange s v)
  | setTab (s : AppState) (t : String) : Step s (setActiveTabTo s t)
  | setInput (s : AppState) (t : String) : Step s (setUserInputTo s t)
  | setQuery (s : AppState) (t : String) : Step s (setSearchQueryTo s t)

/-- States the App component can be in: the initial render plus anything a
sequence of handler runs produces. -/
inductive Reachable : AppState → Prop
  | init : Reachable initialState
  | step {s s' : AppState} : Reachable s → Step s s' → Reachable s'

/-- The document-data invariant of the session: fullText is the join of the
page texts, the page-text count agrees with the page count, a session that is
not Ready holds no document data, and when no file is loaded no extraction is
in flight. -/
def PdfInv (p : PDFState) : Prop :=
  p.text = fullTextJoin 1 p.pageTexts ∧
  p.pageTexts.length = p.numPages ∧
  (statusOf p ≠ Status.Ready → p.pageTexts = [] ∧ p.numPages = 0) ∧
  (p.file = none → p.isProcessing = false)

/-! ### Concrete fixtures

The quick-action menu (part_000 lines 26-55) and a handful of concrete files
and states used to instantiate the theorems below. -/

/-- The Summarize entry of EDIT_ACTIONS (part_000 lines 27-33). -/
def summarizeAction : EditAction :=
  { id := "summarize"
    label := "Summarize"
    description := "Create a concise summary of the document."
    prompt := "Summarize the core points of this document in bullet points."
    icon := "Layout" }

/-- The quick-action menu (part_000 lines 26-55). -/
def EDIT_ACTIONS : List EditAction :=
  [summarizeAction,
   { id := "rewrite-formal"
     label := "Formal Rewrite"
     description := "Rewrite the text in a highly professional tone."
     prompt := "Rewrite the entire content to be more formal and academic."
     icon := "Edit3" },
   { id := "extract-data"
     label := "Extract Key Data"
     description := "Find entities, dates, and amounts."
     prompt := "Extract all key entities, dates, financial amounts, and specific action items from this document as a clean list."
     icon := "FileText" },
   { id := "translate-es"
     label := "Translate (ES)"
     description := "Translate the main content to Spanish."
     prompt := "Translate the main content of this document into professional Spanish."
     icon := "ChevronRight" }]

/-- A three-page PDF file. -/
def sampleFile : PdfFile :=
  { name := "report.pdf", type := "application/pdf"
    pages := [["apple", "pie"], ["banana", "split"], ["cherry", "tart"]] }

/-- A second, one-page PDF file. -/
def secondFile : PdfFile :=
  { name := "other.pdf", type := "application/pdf"
    pages := [["hello", "world"]] }

/-- A file whose MIME type is not PDF. -/
def textFile : PdfFile :=
  { name := "notes.txt", type := "text/plain"
    pages := [["plain", "text"]] }

/-- A two-page PDF whose second page text contains a space. -/
def spacedFile : PdfFile :=
  { name := "spaced.pdf", type := "application/pdf"
    pages := [["x"], ["a", "b"]] }

/-- The state after successfully uploading sampleFile on the initial screen. -/
def readyState : AppState := handleFileUpload initialState (some sampleFile) true

/-- readyState with the chat input filled in. -/
def chatInputState : AppState := setUserInputTo readyState "hi"

/-- The state after one successful chat turn from chatInputState. -/
def chattedState : AppState :=
  handleSendMessage chatInputState true (fun _ => Except.ok (some "It mentions pie."))

/-- The state after one successful Summarize action from readyState. -/
def draftedState : AppState :=
  handleAction readyState summarizeAction true (fun _ => Except.ok (some "A fruit list."))

/-- A session state produced from readyState by a chat turn, a transform,
a page-forward click and a zoom-in click: it has a non-empty transcript, a
non-empty draft, currentPage 2 and a zoom different from 1. -/
def operatedState : AppState :=
  zoomInClick (nextPageClick (handleAction chattedState summarizeAction true
    (fun _ => Except.ok (some "A fruit list."))))

/-- The two-page spacedFile session with the search box holding one space. -/
def spacedState : AppState :=
  setSearchQueryTo (handleFileUpload initialState (some spacedFile) true) " "

/-! ### Helper lemmas: the extraction loop -/

/-- The extraction loop yields one page text per input page. -/
theorem extractPages_length (i : Nat) (ps : List (List String)) :
    (extractPages i ps).2.length = ps.length := by
  induction ps generalizing i with
  | nil => rfl
  | cons p ps ih => simp [extractPages, ih]

/-- The fullText accumulated by the extraction loop is exactly the join of
the page texts it returns, with the page-boundary separators. -/
theorem extractPages_join (i : Nat) (ps : List (List String)) :
    (extractPages i ps).1 = fullTextJoin i (extractPages i ps).2 := by
  induction ps generalizing i with
  | nil => rfl
  | cons p ps ih => simp [extractPages, fullTextJoin, ih]

/-! ### Helper lemmas: jsFindIndex -/

/-- findIndex returns -1 when no element satisfies the predicate. -/
theorem jsFindIndex_eq_neg_one {α : Type} {p : α → Bool} {l : List α}
    (h : ∀ x ∈ l, p x = false) : jsFindIndex p l = -1 := by
  induction l with
  | nil => rfl
  | cons x xs ih =>
      have hx : p x = false := h x (List.mem_cons_self x xs)
      have hxs : jsFindIndex p xs = -1 := ih fun y hy => h y (List.mem_cons_of_mem x hy)
      simp [jsFindIndex, hx, hxs]

/-- findIndex returns the index of the first element satisfying the
predicate. -/
theorem jsFindIndex_eq_of_first {α : Type} {p : α → Bool} :
    ∀ (l : List α) (i : Nat) (h : i < l.length),
      p (l.get ⟨i, h⟩) = true →
      (∀ (j : Nat) (hj : j < i), p (l.get ⟨j, hj.trans h⟩) = false) →
      jsFindIndex p l = i
  | [], i, h, _, _ => absurd h (Nat.not_lt_zero i)
  | x :: xs, 0, _, hp, _ => by simp [jsFindIndex, List.get] at hp ⊢; simp [hp]
  | x :: xs, k + 1, h, hp, hfirst => by
      have hx : p x = false := hfirst 0 (Nat.succ_pos k)
      have hk : k < xs.length := Nat.lt_of_succ_lt_succ h
      have hrec : jsFindIndex p xs = k :=
        jsFindIndex_eq_of_first xs k hk hp fun j hj => hfirst (j + 1) (Nat.succ_lt_succ hj)
      have hok : ¬((k : Int) = -1) := by omega
      simp [jsFindIndex, hx, hrec, hok]

/-! ### Helper lemmas: which fields each handler can touch -/

/-- handleSearch never writes pdfState. -/
theorem handleSearch_pdfState (s : AppState) : (handleSearch s).pdfState = s.pdfState := by
  unfold handleSearch
  split
  · rfl
  · dsimp only
    split <;> rfl

/-- handleAction never writes pdfState. -/
theorem handleAction_pdfState (s : AppState) (a : EditAction) (k : Bool)
    (beh : AIBehaviour String) : (handleAction s a k beh).pdfState = s.pdfState := by
  unfold handleAction
  split
  · rfl
  · dsimp only
    split <;> rfl

/-- handleSendMessage never writes pdfState. -/
theorem handleSendMessage_pdfState (s : AppState) (k : Bool) (beh : AIBehaviour ChatRequest) :
    (handleSendMessage s k beh).pdfState = s.pdfState := by
  unfold handleSendMessage
  split
  · rfl
  · dsimp only
    split <;> rfl

/-- handleFileUpload never writes chatHistory. -/
theorem handleFileUpload_chatHistory (s : AppState) (file : Option PdfFile) (ok : Bool) :
    (handleFileUpload s file ok).chatHistory = s.chatHistory := by
  unfold handleFileUpload
  cases file with
  | none => rfl
  | some f =>
      dsimp only
      split
      · split <;> rfl
      · rfl

/-- handleSearch never writes chatHistory. -/
theorem handleSearch_chatHistory (s : AppState) : (handleSearch s).chatHistory = s.chatHistory := by
  unfold handleSearch
  split
  · rfl
  · dsimp only
    split <;> rfl

/-- handleAction never writes chatHistory. -/
theorem handleAction_chatHistory (s : AppState) (a : EditAction) (k : Bool)
    (beh : AIBehaviour String) : (handleAction s a k beh).chatHistory = s.chatHistory := by
  unfold handleAction
  split
  · rfl
  · dsimp only
    split <;> rfl

/-- handleSendMessage only ever appends to chatHistory. -/
theorem handleSendMessage_chatHistory_extends (s : AppState) (k : Bool)
    (beh : AIBehaviour ChatRequest) :
    s.chatHistory <+: (handleSendMessage s k beh).chatHistory := by
  unfold handleSendMessage
  split
  · exact List.prefix_refl _
  · dsimp only
    split
    · exact ⟨_, (List.append_assoc _ _ _).symm⟩
    · exact ⟨_, (List.append_assoc _ _ _).symm⟩

/-- handleFileUpload with no file selected takes the rejection branch. -/
theorem handleFileUpload_none (s : AppState) (ok : Bool) :
    handleFileUpload s none ok = uploadRejected s := rfl

/-- handleFileUpload with a non-PDF file takes the rejection branch. -/
theorem handleFileUpload_badType (s : AppState) (f : PdfFile) (ok : Bool)
    (ht : f.type ≠ "application/pdf") :
    handleFileUpload s (some f) ok = uploadRejected s := by
  simp [handleFileUpload, ht]

/-- The pdfState written by a successful upload of a PDF file. -/
theorem handleFileUpload_ok_pdfState (s : AppState) (f : PdfFile)
    (ht : f.type = "application/pdf") :
    (handleFileUpload s (some f) true).pdfState =
      { file := some f
        url := some ("blob:" ++ f.name)
        text := (extractTextFromPDF f).fullText
        pageTexts := (extractTextFromPDF f).pageTexts
        numPages := (extractTextFromPDF f).numPages
        isProcessing := false
        error := none } := by
  simp [handleFileUpload, ht, uploadResetState]

/-- The pdfState written by an upload of a PDF file whose extraction threw. -/
theorem handleFileUpload_fail_pdfState (s : AppState) (f : PdfFile)
    (ht : f.type = "application/pdf") :
    (handleFileUpload s (some f) false).pdfState =
      { file := some f
        url := some ("blob:" ++ f.name)
        text := ""
        pageTexts := []
        numPages := 0
        isProcessing := false
        error := some "Failed to extract text from PDF." } := by
  simp [handleFileUpload, ht, uploadResetState]

/-! ### The reachability invariant -/

/-- The initial render satisfies the document-data invariant. -/
theorem pdfInv_initial : PdfInv initialState.pdfState :=
  ⟨rfl, rfl, fun _ => ⟨rfl, rfl⟩, fun _ => rfl⟩

/-- Every handler run preserves the document-data invariant.  The upload
handler can only fire on the empty screen (the file input is rendered only
when no file is loaded), which the Step constructor records. -/
theorem pdfInv_step {s s' : AppState} (st : Step s s') (hi : PdfInv s.pdfState) :
    PdfInv s'.pdfState := by
  obtain ⟨h1, h2, h3, h4⟩ := hi
  cases st with
  | upload file ok hfile =>
      have hstat : statusOf s.pdfState = Status.Empty := by
        simp [statusOf, hfile]
      have hdata : s.pdfState.pageTexts = [] ∧ s.pdfState.numPages = 0 :=
        h3 (by simp [hstat])
      have hproc : s.pdfState.isProcessing = false := h4 hfile
      cases file with
      | none => exact ⟨h1, h2, fun _ => hdata, fun _ => hproc⟩
      | some f =>
          by_cases ht : f.type = "application/pdf"
          · cases ok with
            | true =>
                rw [handleFileUpload_ok_pdfState s f ht]
                refine ⟨extractPages_join 1 f.pages, extractPages_length 1 f.pages,
                  fun hne => absurd rfl hne, fun hcontra => absurd hcontra (by simp)⟩
            | false =>
                rw [handleFileUpload_fail_pdfState s f ht]
                exact ⟨rfl, rfl, fun _ => ⟨rfl, rfl⟩, fun hcontra => absurd hcontra (by simp)⟩
          · rw [handleFileUpload_badType s f ok ht]
            exact ⟨h1, h2, fun _ => hdata, fun _ => hproc⟩
  | close hfile => exact ⟨rfl, rfl, fun _ => ⟨rfl, rfl⟩, fun _ => rfl⟩
  | search => rw [handleSearch_pdfState]; exact ⟨h1, h2, h3, h4⟩
  | action a k beh => rw [handleAction_pdfState]; exact ⟨h1, h2, h3, h4⟩
  | send k beh => rw [handleSendMessage_pdfState]; exact ⟨h1, h2, h3, h4⟩
  | zoomIn => exact ⟨h1, h2, h3, h4⟩
  | zoomOut => exact ⟨h1, h2, h3, h4⟩
  | zoomReset => exact ⟨h1, h2, h3, h4⟩
  | prev => exact ⟨h1, h2, h3, h4⟩
  | next => exact ⟨h1, h2, h3, h4⟩
  | pageInput v =>
      unfold pageInputChange
      split <;> exact ⟨h1, h2, h3, h4⟩
  | setTab t => exact ⟨h1, h2, h3, h4⟩
  | setInput t => exact ⟨h1, h2, h3, h4⟩
  | setQuery t => exact ⟨h1, h2, h3, h4⟩

/-- The document-data invariant holds in every reachable state. -/
theorem reachable_pdfInv {s : AppState} (h : Reachable s) : PdfInv s.pdfState := by
  induction h with
  | init => exact pdfInv_initial
  | step _ st ih => exact pdfInv_step st ih

/-- readyState is reachable: it is one successful upload from the start. -/
theorem readyState_reachable : Reachable readyState :=
  Reachable.step Reachable.init (Step.upload initialState (some sampleFile) true rfl)

/-! ### Claim C1 -/

/-- Claim C1, counterexample: operatedState is a session produced from a
loaded document by a chat turn, a transform, a page-forward click and a
zoom-in click.  Uploading a new file from it leaves the chat transcript and
the draft exactly as they were, refuting the claim that loadDocument resets
draftContent to the empty string and the transcript to empty.  The same
holds on the only path the rendered UI offers (close the session first,
then select the new file): the transcript and draft still survive. -/
theorem c1_counterexample :
    (handleFileUpload operatedState (some secondFile) true).chatHistory =
      [{ role := Role.user, content := "hi" },
       { role := Role.assistant, content := "It mentions pie." }] ∧
    (handleFileUpload operatedState (some secondFile) true).chatHistory ≠ [] ∧
    (handleFileUpload operatedState (some secondFile) true).editedContent = "A fruit list." ∧
    (handleFileUpload operatedState (some secondFile) true).editedContent ≠ "" ∧
    (handleFileUpload (closeSession operatedState) (some secondFile) true).chatHistory ≠ [] ∧
    (handleFileUpload (closeSession operatedState) (some secondFile) true).editedContent ≠ "" := by
  decide

/-- Claim C1, amended: uploading a new PDF file clears the document data
(text, pageTexts, numPages) and raises isProcessing before the extraction is
awaited, while currentPage, zoomFactor, the draft and the transcript keep
their prior values at that point; currentPage is set to 1 only after the
extraction completes successfully (and keeps its prior value when extraction
fails); zoomFactor, the draft and the transcript are never reset by the
upload at all. -/
theorem c1_amended (s : AppState) (f : PdfFile) (h : f.type = "application/pdf") (ok : Bool) :
    ((uploadResetState s f).pdfState.text = "" ∧
      (uploadResetState s f).pdfState.pageTexts = [] ∧
      (uploadResetState s f).pdfState.numPages = 0 ∧
      (uploadResetState s f).pdfState.isProcessing = true ∧
      (uploadResetState s f).currentPage = s.currentPage ∧
      (uploadResetState s f).zoom = s.zoom ∧
      (uploadResetState s f).chatHistory = s.chatHistory ∧
      (uploadResetState s f).editedContent = s.editedContent) ∧
    ((handleFileUpload s (some f) ok).zoom = s.zoom ∧
      (handleFileUpload s (some f) ok).chatHistory = s.chatHistory ∧
      (handleFileUpload s (some f) ok).editedContent = s.editedContent) ∧
    (ok = true → (handleFileUpload s (some f) ok).currentPage = 1) ∧
    (ok = false → (handleFileUpload s (some f) ok).currentPage = s.currentPage) := by
  cases ok <;> simp [handleFileUpload, uploadResetState, h]

/-- Claim C1 witness: the amended statement instantiated on readyState and a
concrete second PDF file. -/
theorem c1_amended_witness :
    (handleFileUpload readyState (some secondFile) true).chatHistory = readyState.chatHistory ∧
    (handleFileUpload readyState (some secondFile) true).currentPage = 1 :=
  ⟨(c1_amended readyState secondFile rfl true).2.1.2.1,
   (c1_amended readyState secondFile rfl true).2.2.1 rfl⟩

/-! ### Claim C2 -/

/-- Claim C2, counterexample: from a Ready session whose draft holds a prior
transform result, a transform whose provider call fails overwrites the draft
with the string Error: network down, refuting the claim that draftContent is
identical to its pre-call value after a collaborator failure.  The session
status is indeed unchanged. -/
theorem c2_counterexample :
    draftedState.editedContent = "A fruit list." ∧
    statusOf draftedState.pdfState = Status.Ready ∧
    (handleAction draftedState summarizeAction true
        (fun _ => Except.error "network down")).editedContent = "Error: network down" ∧
    (handleAction draftedState summarizeAction true
        (fun _ => Except.error "network down")).editedContent ≠ draftedState.editedContent ∧
    (handleAction draftedState summarizeAction true
        (fun _ => Except.error "network down")).pdfState = draftedState.pdfState := by
  decide

/-- Claim C2, amended: a provider failure inside processDocumentAction is
caught there and returned as the string Error: followed by the message (or a
fixed fallback when the message is empty), and handleAction stores that
string into draftContent, overwriting the prior draft; pdfState, and with it
the session status, is unchanged.  draftContent is preserved only when
processDocumentAction itself throws, which happens exactly when the API key
is missing. -/
theorem c2_amended (s : AppState) (a : EditAction) (e : String) (beh : AIBehaviour String)
    (ht : s.pdfState.text ≠ "")
    (hb : beh (buildActionPrompt s.pdfState.text a.prompt "") = Except.error e) :
    (handleAction s a true beh).pdfState = s.pdfState ∧
    statusOf (handleAction s a true beh).pdfState = statusOf s.pdfState ∧
    (handleAction s a true beh).editedContent =
      "Error: " ++ (if e = "" then "Failed to communicate with AI" else e) ∧
    (∀ beh2 : AIBehaviour String,
      (handleAction s a false beh2).pdfState = s.pdfState ∧
      (handleAction s a false beh2).editedContent = s.editedContent) := by
  refine ⟨handleAction_pdfState s a true beh, by rw [handleAction_pdfState], ?_, ?_⟩
  · simp [handleAction, processDocumentAction, ht, hb]
  · intro beh2
    refine ⟨handleAction_pdfState s a false beh2, ?_⟩
    simp [handleAction, processDocumentAction, ht]

/-- Claim C2 witness: the amended statement instantiated on draftedState with
a failing provider. -/
theorem c2_amended_witness :
    (handleAction draftedState summarizeAction true
        (fun _ => Except.error "boom")).editedContent = "Error: boom" := by
  have h := c2_amended draftedState summarizeAction "boom"
    (fun _ => Except.error "boom") (by decide) rfl
  simpa using h.2.2.1

/-! ### Claim C3 -/

/-- Claim C3, counterexample: in a Ready three-page session sitting on page
2, entering the out-of-range page numbers 0 and 9 leaves currentPage at 2:
the attempt is ignored, not clamped to the nearest boundary (1 resp. 3) as
the claim states. -/
theorem c3_counterexample :
    statusOf (nextPageClick readyState).pdfState = Status.Ready ∧
    (nextPageClick readyState).currentPage = 2 ∧
    (nextPageClick readyState).pdfState.numPages = 3 ∧
    (pageInputChange (nextPageClick readyState) 0).currentPage = 2 ∧
    (pageInputChange (nextPageClick readyState) 0).currentPage ≠ 1 ∧
    (pageInputChange (nextPageClick readyState) 9).currentPage = 2 ∧
    (pageInputChange (nextPageClick readyState) 9).currentPage ≠ 3 := by
  decide

/-- Claim C3, amended: the direct page-number input stores p exactly when p
lies in [1, pageCount] and otherwise ignores the attempt, leaving the state
unchanged; the previous- and next-page buttons do clamp, to 1 from below and
to pageCount from above. -/
theorem c3_amended (s : AppState) (p : Int) :
    (1 ≤ p ∧ p ≤ (s.pdfState.numPages : Int) → (pageInputChange s p).currentPage = p) ∧
    (¬(1 ≤ p ∧ p ≤ (s.pdfState.numPages : Int)) → pageInputChange s p = s) ∧
    (prevPageClick s).currentPage = max 1 (s.currentPage - 1) ∧
    (nextPageClick s).currentPage = min (s.pdfState.numPages : Int) (s.currentPage + 1) := by
  refine ⟨?_, ?_, rfl, rfl⟩
  · intro hp
    simp [pageInputChange, hp]
  · intro hp
    simp [pageInputChange, hp]

/-- Claim C3 witness: the amended statement instantiated on the Ready
three-page session and the in-range page number 2. -/
theorem c3_amended_witness : (pageInputChange readyState 2).currentPage = 2 :=
  (c3_amended readyState 2).1 (by decide)

/-! ### Claim C4 -/

/-- Claim C4, confirmed: when the send guard passes (non-blank input,
non-empty document text, no call in flight), handleSendMessage extends the
transcript with exactly the user message followed by one assistant message,
in that order, leaving every prior entry in place; the assistant content is
the AI result when the provider resolves with non-empty text, and a fixed
fallback sentence when the call throws (missing API key). -/
theorem c4_chat_append_order (s : AppState) (k : Bool) (beh : AIBehaviour ChatRequest)
    (h1 : jsTrim s.userInput ≠ "") (h2 : s.pdfState.text ≠ "") (h3 : s.isAiLoading = false) :
    ∃ r : String,
      (handleSendMessage s k beh).chatHistory =
        s.chatHistory ++
          [{ role := Role.user, content := s.userInput },
           { role := Role.assistant, content := r }] ∧
      (∀ t : String, k = true →
        beh (chatRequestOf s.pdfState.text s.chatHistory s.userInput) = Except.ok (some t) →
        t ≠ "" → r = t) ∧
      (k = false → r = "Sorry, I failed to process that.") := by
  have hg : ¬(jsTrim s.userInput = "" ∨ s.pdfState.text = "" ∨ s.isAiLoading = true) := by
    push_neg
    exact ⟨h1, h2, by simp [h3]⟩
  unfold handleSendMessage
  rw [if_neg hg]
  cases k with
  | false =>
      refine ⟨"Sorry, I failed to process that.", ?_, ?_, fun _ => rfl⟩
      · simp [chatWithDocument, List.append_assoc]
      · intro t hk
        exact absurd hk (by simp)
  | true =>
      cases hb : beh (chatRequestOf s.pdfState.text s.chatHistory s.userInput) with
      | error e =>
          refine ⟨"Something went wrong during the conversation.", ?_, ?_, by simp⟩
          · simp [chatWithDocument, hb, List.append_assoc]
          · intro t _ hbeq
            simp at hbeq
      | ok t =>
          cases t with
          | none =>
              refine ⟨"No response received.", ?_, ?_, by simp⟩
              · simp [chatWithDocument, hb, List.append_assoc]
              · intro t' _ hbeq
                simp at hbeq
          | some r0 =>
              by_cases hr : r0 = ""
              · refine ⟨"No response received.", ?_, ?_, by simp⟩
                · simp [chatWithDocument, hb, hr, List.append_assoc]
                · intro t' _ hbeq hne
                  simp at hbeq
                  exact absurd (hbeq ▸ hr) hne
              · refine ⟨r0, ?_, ?_, by simp⟩
                · simp [chatWithDocument, hb, hr, List.append_assoc]
                · intro t' _ hbeq _
                  simp at hbeq
                  exact hbeq

/-- Claim C4 witness: one successful chat turn from chatInputState appends
the user message hi and then the assistant reply. -/
theorem c4_chat_append_order_witness :
    (handleSendMessage chatInputState true
        (fun _ => Except.ok (some "It mentions pie."))).chatHistory =
      chatInputState.chatHistory ++
        [{ role := Role.user, content := "hi" },
         { role := Role.assistant, content := "It mentions pie." }] := by
  obtain ⟨r, hr, hok, _⟩ := c4_chat_append_order chatInputState true
    (fun _ => Except.ok (some "It mentions pie.")) (by decide) (by decide) rfl
  have hre : r = "It mentions pie." := hok "It mentions pie." rfl rfl (by decide)
  rw [hre] at hr
  exact hr

/-! ### Claim C5 -/

/-- Claim C5, confirmed: in every reachable state, fullText equals the
ordered join of pageTexts with the page separators; whenever the session is
Ready the number of page texts equals the page count; and outside Ready the
page texts and page count are empty and zero.  In particular this holds in
the state reached immediately after every successful loadDocument. -/
theorem c5_fulltext_invariant (s : AppState) (h : Reachable s) :
    s.pdfState.text = fullTextJoin 1 s.pdfState.pageTexts ∧
    (statusOf s.pdfState = Status.Ready →
      s.pdfState.pageTexts.length = s.pdfState.numPages) ∧
    (statusOf s.pdfState ≠ Status.Ready →
      s.pdfState.pageTexts = [] ∧ s.pdfState.numPages = 0) := by
  obtain ⟨h1, h2, h3, _⟩ := reachable_pdfInv h
  exact ⟨h1, fun _ => h2, h3⟩

/-- Claim C5 witness: the invariant instantiated on the reachable Ready
state obtained by one successful upload. -/
theorem c5_fulltext_invariant_witness :
    statusOf readyState.pdfState = Status.Ready ∧
    readyState.pdfState.pageTexts.length = readyState.pdfState.numPages ∧
    readyState.pdfState.text = fullTextJoin 1 readyState.pdfState.pageTexts := by
  have h := c5_fulltext_invariant readyState
    (Reachable.step Reachable.init (Step.upload initialState (some sampleFile) true rfl))
  exact ⟨by decide, h.2.1 (by decide), h.1⟩

/-! ### Claim C6 -/

/-- Claim C6, counterexample: in the spacedFile session the query is the
single space, whose trimmed form is empty; page 2 contains a space (and page
1 does not), so under the claim the search should set currentPage to 2, but
handleSearch returns the state unchanged with currentPage 1: blank queries
are dropped by the guard before any substring search happens. -/
theorem c6_counterexample :
    spacedState.pdfState.pageTexts = ["x", "a b"] ∧
    jsIncludes (jsToLower "a b") (jsToLower " ") = true ∧
    jsIncludes (jsToLower "x") (jsToLower " ") = false ∧
    spacedState.currentPage = 1 ∧
    handleSearch spacedState = spacedState ∧
    (handleSearch spacedState).currentPage ≠ 2 := by
  decide

/-- Claim C6, amended: a query whose trimmed form is empty is ignored (the
state is returned unchanged); for any other query, if no page text contains
the lowercased query then the state is unchanged, and if page i (0-based) is
the first page whose lowercased text contains the lowercased query then
currentPage becomes i plus 1. -/
theorem c6_amended (s : AppState) :
    (jsTrim s.searchQuery = "" → handleSearch s = s) ∧
    ((∀ t ∈ s.pdfState.pageTexts,
        jsIncludes (jsToLower t) (jsToLower s.searchQuery) = false) →
      handleSearch s = s) ∧
    (∀ (i : Nat) (hi : i < s.pdfState.pageTexts.length),
      jsTrim s.searchQuery ≠ "" →
      jsIncludes (jsToLower (s.pdfState.pageTexts.get ⟨i, hi⟩))
        (jsToLower s.searchQuery) = true →
      (∀ (j : Nat) (hj : j < i),
        jsIncludes (jsToLower (s.pdfState.pageTexts.get ⟨j, hj.trans hi⟩))
          (jsToLower s.searchQuery) = false) →
      (handleSearch s).currentPage = (i : Int) + 1) := by
  refine ⟨?_, ?_, ?_⟩
  · intro hq
    simp [handleSearch, hq]
  · intro hall
    by_cases hq : jsTrim s.searchQuery = ""
    · simp [handleSearch, hq]
    · have hidx : jsFindIndex (fun t => jsIncludes (jsToLower t) (jsToLower s.searchQuery))
          s.pdfState.pageTexts = -1 :=
        jsFindIndex_eq_neg_one hall
      simp [handleSearch, hq, hidx]
  · intro i hi hq hp hfirst
    have hidx : jsFindIndex (fun t => jsIncludes (jsToLower t) (jsToLower s.searchQuery))
        s.pdfState.pageTexts = (i : Int) :=
      jsFindIndex_eq_of_first _ i hi hp hfirst
    have hne : ¬((i : Int) = -1) := by omega
    simp [handleSearch, hq, hidx, hne]

/-- Claim C6 witness: the amended statement instantiated on the three-page
session with query BANANA, whose first (and only) match is page 2. -/
theorem c6_amended_witness :
    (handleSearch (setSearchQueryTo readyState "BANANA")).currentPage = 2 := by
  have hi : (1 : Nat) < (setSearchQueryTo readyState "BANANA").pdfState.pageTexts.length := by
    decide
  have hfirst : ∀ (j : Nat) (hj : j < 1),
      jsIncludes (jsToLower ((setSearchQueryTo readyState "BANANA").pdfState.pageTexts.get
          ⟨j, hj.trans hi⟩))
        (jsToLower (setSearchQueryTo readyState "BANANA").searchQuery) = false := by
    intro j hj
    have hj0 : j = 0 := Nat.lt_one_iff.mp hj
    subst hj0
    have hg : (setSearchQueryTo readyState "BANANA").pdfState.pageTexts.get ⟨0, hj.trans hi⟩
        = "apple pie" := rfl
    rw [hg]
    decide
  have hgp : (setSearchQueryTo readyState "BANANA").pdfState.pageTexts.get ⟨1, hi⟩
      = "banana split" := rfl
  have hp : jsIncludes (jsToLower ((setSearchQueryTo readyState "BANANA").pdfState.pageTexts.get
        ⟨1, hi⟩))
      (jsToLower (setSearchQueryTo readyState "BANANA").searchQuery) = true := by
    rw [hgp]
    decide
  have h := (c6_amended (setSearchQueryTo readyState "BANANA")).2.2 1 hi (by decide) hp hfirst
  simpa using h

/-! ### Claim C7 -/

/-- Claim C7, confirmed: selecting a non-PDF file while no file is loaded
takes the rejection branch: the session stays Empty with the fixed error
message, isProcessing is never raised (no Loading transition), and the
document data stays absent (no page texts, zero page count, empty text). -/
theorem c7_non_pdf_rejected (s : AppState) (f : PdfFile) (ok : Bool)
    (hr : Reachable s) (hEmpty : s.pdfState.file = none)
    (hf : f.type ≠ "application/pdf") :
    handleFileUpload s (some f) ok = uploadRejected s ∧
    (handleFileUpload s (some f) ok).pdfState.file = none ∧
    statusOf (handleFileUpload s (some f) ok).pdfState = Status.Empty ∧
    (handleFileUpload s (some f) ok).pdfState.error = some "Please upload a valid PDF file." ∧
    (handleFileUpload s (some f) ok).pdfState.isProcessing = false ∧
    (handleFileUpload s (some f) ok).pdfState.pageTexts = [] ∧
    (handleFileUpload s (some f) ok).pdfState.numPages = 0 ∧
    (handleFileUpload s (some f) ok).pdfState.text = "" := by
  obtain ⟨h1, h2, h3, h4⟩ := reachable_pdfInv hr
  have hstat : statusOf s.pdfState = Status.Empty := by simp [statusOf, hEmpty]
  obtain ⟨hpt, hnp⟩ := h3 (by simp [hstat])
  rw [handleFileUpload_badType s f ok hf]
  refine ⟨rfl, hEmpty, ?_, rfl, h4 hEmpty, hpt, hnp, ?_⟩
  · simp [statusOf, uploadRejected, hEmpty]
  · show s.pdfState.text = ""
    rw [h1, hpt]
    rfl

/-- Claim C7 witness: uploading the plain-text file on the initial screen. -/
theorem c7_non_pdf_rejected_witness :
    (handleFileUpload initialState (some textFile) true).pdfState.file = none ∧
    statusOf (handleFileUpload initialState (some textFile) true).pdfState = Status.Empty ∧
    (handleFileUpload initialState (some textFile) true).pdfState.error =
      some "Please upload a valid PDF file." ∧
    (handleFileUpload initialState (some textFile) true).pdfState.isProcessing = false := by
  have h := c7_non_pdf_rejected initialState textFile true Reachable.init rfl (by decide)
  exact ⟨h.2.1, h.2.2.1, h.2.2.2.1, h.2.2.2.2.1⟩

/-! ### Claim C8 -/

/-- Claim C8, confirmed: the document text embedded in the transform prompt
is actionDocSlice, a prefix of the document of at most 15000 characters, and
the document text embedded in the chat system instruction is chatDocSlice, a
prefix of at most 20000 characters; in both cases the remainder of the
document simply does not occur in what is submitted. -/
theorem c8_truncation (d : String) :
    (actionDocSlice d).data <+: d.data ∧
    (actionDocSlice d).data.length ≤ 15000 ∧
    (chatDocSlice d).data <+: d.data ∧
    (chatDocSlice d).data.length ≤ 20000 ∧
    (∀ a c : String, ∃ pre post : String,
      buildActionPrompt d a c = pre ++ actionDocSlice d ++ post) ∧
    (∃ pre post : String, chatSystemInstruction d = pre ++ chatDocSlice d ++ post) := by
  have hdata15 : (actionDocSlice d).data = d.data.take 15000 := by
    simp [actionDocSlice, jsSubstring]
  have hdata20 : (chatDocSlice d).data = d.data.take 20000 := by
    simp [chatDocSlice, jsSubstring]
  refine ⟨?_, ?_, ?_, ?_, ?_, ?_⟩
  · rw [hdata15]
    exact ⟨d.data.drop 15000, List.take_append_drop _ _⟩
  · rw [hdata15, List.length_take]
    exact Nat.min_le_left _ _
  · rw [hdata20]
    exact ⟨d.data.drop 20000, List.take_append_drop _ _⟩
  · rw [hdata20, List.length_take]
    exact Nat.min_le_left _ _
  · intro a c
    refine ⟨"\n    You are a professional document editor and analyst.\n    Below is the content of a PDF document:\n    --- DOCUMENT START ---\n    ",
      " // Truncate if too long for safety\n    --- DOCUMENT END ---\n\n    Instruction: "
        ++ a ++ "\n    "
        ++ (if c = "" then "" else "Additional Context/User Input: " ++ c)
        ++ "\n\n    Please provide a high-quality response. If the request is to \"rewrite\", \"summarize\", or \"transform\", provide the new content clearly.\n  ", ?_⟩
    simp [buildActionPrompt, String.append_assoc]
  · refine ⟨"\n    You are OmniPDF Assistant. You have full access to the document text provided below.\n    Answer questions based ONLY on the document content where possible.\n    If the information is not in the document, state that clearly but try to be helpful.\n    Document content:\n    ",
      "\n  ", ?_⟩
    simp [chatSystemInstruction, String.append_assoc]

/-! ### Claim C9 -/

/-- Claim C9, counterexample: after a chat turn the transcript is non-empty;
closing the session leaves the transcript exactly as it was, and so does a
subsequent fresh upload, refuting the claim that close or new upload clears
the transcript. -/
theorem c9_counterexample :
    chattedState.chatHistory ≠ [] ∧
    chattedState.pdfState.file.isSome = true ∧
    (closeSession chattedState).chatHistory = chattedState.chatHistory ∧
    (closeSession chattedState).chatHistory ≠ [] ∧
    (handleFileUpload (closeSession chattedState) (some secondFile) true).chatHistory ≠ [] := by
  decide

/-- Claim C9, amended: the transcript is append-only across every transition
(the prior transcript is always a prefix of the new one) and it is never
cleared within the lifetime of the component: in particular close and upload
leave it untouched. -/
theorem c9_amended (s s' : AppState) (f : Option PdfFile) (ok : Bool) (h : Step s s') :
    s.chatHistory <+: s'.chatHistory ∧
    (closeSession s).chatHistory = s.chatHistory ∧
    (handleFileUpload s f ok).chatHistory = s.chatHistory := by
  refine ⟨?_, rfl, handleFileUpload_chatHistory s f ok⟩
  cases h with
  | upload file2 ok2 hfile => rw [handleFileUpload_chatHistory]
  | close hfile => exact List.prefix_refl _
  | search => rw [handleSearch_chatHistory]
  | action a k beh => rw [handleAction_chatHistory]
  | send k beh => exact handleSendMessage_chatHistory_extends s k beh
  | zoomIn => exact List.prefix_refl _
  | zoomOut => exact List.prefix_refl _
  | zoomReset => exact List.prefix_refl _
  | prev => exact List.prefix_refl _
  | next => exact List.prefix_refl _
  | pageInput v =>
      unfold pageInputChange
      split <;> exact List.prefix_refl _
  | setTab t => exact List.prefix_refl _
  | setInput t => exact List.prefix_refl _
  | setQuery t => exact List.prefix_refl _

/-- Claim C9 witness: the amended statement instantiated on readyState and
the tab-switch step. -/
theorem c9_amended_witness :
    readyState.chatHistory <+: (setActiveTabTo readyState "chat").chatHistory ∧
    (closeSession readyState).chatHistory = readyState.chatHistory :=
  ⟨(c9_amended readyState (setActiveTabTo readyState "chat") none true
      (Step.setTab readyState "chat")).1,
   (c9_amended readyState (setActiveTabTo readyState "chat") none true
      (Step.setTab readyState "chat")).2.1⟩

/-! ### Claim C10 -/

/-- Claim C10, confirmed: the history argument of chatWithDocument has no
influence at all: with the same document text, user message and provider
behaviour, any two history values give the same request to the provider and
the same returned result. -/
theorem c10_history_independent (d m : String) (h1 h2 : List ChatMessage) (k : Bool)
    (beh : AIBehaviour ChatRequest) :
    chatRequestOf d h1 m = chatRequestOf d h2 m ∧
    chatWithDocument k d h1 m beh = chatWithDocument k d h2 m beh :=
  ⟨rfl, rfl⟩

end OmniPDF
